import Mathlib

/-
Verification development for the battery-percentage monitor core.

The Rust sources are shallowly embedded: pure logic becomes Lean
functions, filesystem and bus reads become explicit `Option String`
file-content parameters, clock reads become explicit `Nat` timestamp
parameters, and the external desktop notifier becomes an explicit
Bool outcome parameter.  Machine integers (u8) are Nat with explicit
range checks where the source parses them.
-/

set_option maxRecDepth 4096

deriving instance DecidableEq for Except

namespace BatteryBt

/-! ## String helpers mirroring the Rust std functions used by the code -/

/-- Character-list version of substring containment. -/
def isPrefixCharList : List Char → List Char → Bool
  | [], _ => true
  | _ :: _, [] => false
  | a :: as, b :: bs => a == b && isPrefixCharList as bs

/-- Does the haystack contain the needle as a contiguous substring? -/
def containsCharList (needle : List Char) : List Char → Bool
  | [] => needle.isEmpty
  | c :: rest => isPrefixCharList needle (c :: rest) || containsCharList needle rest

/-- Mirrors Rust `str::contains` for plain substrings. -/
def strContains (hay pat : String) : Bool :=
  containsCharList pat.data hay.data

/-- Mirrors Rust `str::to_lowercase` (ASCII-adequate for the names used here). -/
def strToLower (s : String) : String :=
  String.mk (s.data.map Char.toLower)

/-- Mirrors Rust `str::trim`: strip whitespace from both ends. -/
def strTrim (s : String) : String :=
  String.mk ((((s.data.dropWhile Char.isWhitespace).reverse).dropWhile Char.isWhitespace).reverse)

/-- Digit-string accumulator for `parseU8`. -/
def parseDigits : List Char → Nat → Option Nat
  | [], acc => some acc
  | c :: rest, acc =>
      if c.isDigit then parseDigits rest (acc * 10 + (c.toNat - 48)) else none

/-- Mirrors Rust `str::parse::<u8>()::ok()`: optional leading plus sign, at
least one digit, value at most 255; anything else gives `none`. -/
def parseU8 (s : String) : Option Nat :=
  let cs : List Char :=
    match s.data with
    | c :: rest => if c == hPlus then rest else c :: rest
    | [] => []
  match cs with
  | [] => none
  | _ =>
      match parseDigits cs 0 with
      | some v => if v ≤ 255 then some v else none
      | none => none
where
  hPlus : Char := Char.ofNat 43

/-! ## Data model (crates/core/src/lib.rs) -/

inductive DeviceType where
  | Mouse
  | Keyboard
  | Mobile
  | Buds
  | Headphones
  | Tablet
  | Unknown
deriving DecidableEq, Repr

inductive ConnectionType where
  | Bluetooth
  | USB
  | Wireless2_4G
deriving DecidableEq, Repr

inductive ConnectionStatus where
  | Connected
  | Disconnected
deriving DecidableEq, Repr

/-- The `Device` record from crates/core/src/lib.rs; `last_seen` is a Nat timestamp,
`battery_level` an optional Nat carrying the u8 value. -/
structure Device where
  id : String
  name : String
  device_type : DeviceType
  connection_type : ConnectionType
  battery_level : Option Nat
  connection_status : ConnectionStatus
  last_seen : Nat
deriving DecidableEq, Repr

inductive DeviceEvent where
  | DeviceAdded (device : Device)
  | DeviceUpdated (device : Device)
  | DeviceRemoved (id : String)
  | BatteryChanged (id : String) (level : Nat)
deriving DecidableEq, Repr

inductive CoreErrorM where
  | DeviceDetectionFailed (msg : String)
  | PermissionDenied (device_id : String)
  | SystemApiError
  | DBusError
  | MonitorAlreadyRunning
  | MonitorNotRunning
deriving DecidableEq, Repr

/-- Mirrors `Device::with_id`: fresh record, battery absent, disconnected. -/
def Device.with_id (now : Nat) (id name : String)
    (device_type : DeviceType) (connection_type : ConnectionType) : Device :=
  { id := id, name := name, device_type := device_type,
    connection_type := connection_type, battery_level := none,
    connection_status := ConnectionStatus.Disconnected, last_seen := now }

/-- Mirrors `Device::update_battery`. -/
def Device.update_battery (d : Device) (now : Nat) (level : Option Nat) : Device :=
  { d with battery_level := level, last_seen := now }

/-- Mirrors `Device::set_connected`. -/
def Device.set_connected (d : Device) (now : Nat) (connected : Bool) : Device :=
  { d with
    connection_status :=
      if connected then ConnectionStatus.Connected else ConnectionStatus.Disconnected,
    last_seen := now }

/-- Mirrors `detect_device_type` from crates/core/src/lib.rs: exact class codes first,
then substring heuristics on the lowercased name. -/
def detect_device_type (device_name : String) (device_class : Option Nat) : DeviceType :=
  let name_lower := strToLower device_name
  let byClass : Option DeviceType :=
    match device_class with
    | some c =>
        if c = 0x002580 then some DeviceType.Mouse
        else if c = 0x002540 then some DeviceType.Keyboard
        else if c = 0x240404 then some DeviceType.Headphones
        else none
    | none => none
  match byClass with
  | some t => t
  | none =>
      if strContains name_lower "mouse" then DeviceType.Mouse
      else if strContains name_lower "keyboard" then DeviceType.Keyboard
      else if strContains name_lower "headphone" || strContains name_lower "headset" then
        DeviceType.Headphones
      else if strContains name_lower "buds" || strContains name_lower "airpods" then
        DeviceType.Buds
      else if strContains name_lower "phone" || strContains name_lower "mobile" then
        DeviceType.Mobile
      else if strContains name_lower "tablet" || strContains name_lower "ipad" then
        DeviceType.Tablet
      else DeviceType.Unknown

/-! ## PeripheralSource: power-supply scan (crates/core/src/usb.rs)

Filesystem reads are embedded as `Option String` file contents: `none`
means the file does not exist, `some s` that it exists with content `s`. -/

/-- One entry of the power-supply enumeration directory with its files. -/
structure PSEntry where
  name : String
  type_file : Option String
  capacity_file : Option String
  status_file : Option String
  model_name_file : Option String
deriving DecidableEq, Repr

/-- Mirrors `UsbScanner::create_power_supply_device`.  A missing `type` file is a
read failure and propagates as an error, exactly as the `?` in the source;
the other files degrade to defaults as in the source. -/
def create_power_supply_device (now : Nat) (device_name : String)
    (type_file capacity_file status_file model_name_file : Option String) :
    Except CoreErrorM Device :=
  match type_file with
  | none => Except.error CoreErrorM.SystemApiError
  | some t =>
      let device_type_str := strTrim t
      if device_type_str = "Battery" then
        let capacity : Option Nat :=
          match capacity_file with
          | some s => parseU8 (strTrim s)
          | none => none
        let status : String :=
          match status_file with
          | some s => strTrim s
          | none => "Unknown"
        let model_name : String :=
          match model_name_file with
          | some s => strTrim s
          | none => device_name
        let display_name := if model_name = "" then device_name else model_name
        let device_type := detect_device_type display_name none
        let connection_type :=
          if strContains device_name "hid" || strContains device_name "usb" then
            ConnectionType.USB
          else if strContains device_name "wireless" || strContains device_name "2.4g" then
            ConnectionType.Wireless2_4G
          else ConnectionType.USB
        let device := Device.with_id now ("power_supply_" ++ device_name) display_name
          device_type connection_type
        let device := device.update_battery now capacity
        let device := device.set_connected now
          (status = "Discharging" || status = "Charging" || status = "Full")
        Except.ok device
      else
        Except.error (CoreErrorM.DeviceDetectionFailed "Not a battery device")

/-- Mirrors `UsbScanner::scan_power_supply_devices`: per-entry creation failures are
skipped, and only devices that report a battery level are kept. -/
def scan_power_supply_devices (now : Nat) (entries : List PSEntry) :
    Except CoreErrorM (List Device) :=
  Except.ok (entries.foldl
    (fun acc e =>
      match create_power_supply_device now e.name e.type_file e.capacity_file
          e.status_file e.model_name_file with
      | Except.ok d => if d.battery_level.isSome then acc ++ [d] else acc
      | Except.error _ => acc)
    [])

/-! ## AggregateScanner (crates/core/src/device_monitor.rs, scan_all_devices)

Each source call is embedded as its delivered result; the function body
mirrors the two match blocks that append on success and only log on error. -/

/-- The devices a source result contributes (its list on success, nothing on
failure).  Spec-side helper used to state what `scan_all_devices` returns. -/
def okContribution : Except CoreErrorM (List Device) → List Device
  | Except.ok l => l
  | Except.error _ => []

/-- Mirrors `scan_all_devices`: appends each successful source result and swallows
source errors, always returning `ok`. -/
def scan_all_devices (btResult usbResult : Except CoreErrorM (List Device)) :
    Except CoreErrorM (List Device) :=
  let all_devices : List Device := []
  let all_devices :=
    match btResult with
    | Except.ok bt => all_devices ++ bt
    | Except.error _ => all_devices
  let all_devices :=
    match usbResult with
    | Except.ok u => all_devices ++ u
    | Except.error _ => all_devices
  Except.ok all_devices

/-! ## DeviceRegistry (crates/core/src/device_monitor.rs, update_device_list)

The `HashMap<String, Device>` registry is embedded as an association list
with unique insertion semantics; the for-loop over the incoming list is
structural recursion, and the removal sweep keeps exactly the keys seen in
the incoming pass, emitting `DeviceRemoved` for the others. -/

/-- The registry type: id-keyed device map as an association list. -/
abbrev RegT := List (String × Device)

/-- Mirrors `HashMap::insert`: replace the binding of the key, or add one. -/
def mapInsert {β : Type} (m : List (String × β)) (k : String) (v : β) :
    List (String × β) :=
  match m with
  | [] => [(k, v)]
  | (k1, v1) :: t => if k1 = k then (k, v) :: t else (k1, v1) :: mapInsert t k v

/-- Mirrors `HashMap::get`: the value bound to the key, if any. -/
def mapFind {β : Type} (m : List (String × β)) (k : String) : Option β :=
  match m with
  | [] => none
  | (k1, v1) :: t => if k1 = k then some v1 else mapFind t k

/-- The loop body of `update_device_list` for one incoming device: compare
with the stored record, emit battery/update/add events, store the record. -/
def processOne (reg : RegT) (d : Device) : RegT × List DeviceEvent :=
  match mapFind reg d.id with
  | some existing =>
      if existing = d then (reg, [])
      else
        let bcEvents : List DeviceEvent :=
          if existing.battery_level = d.battery_level then []
          else
            match d.battery_level with
            | some level => [DeviceEvent.BatteryChanged d.id level]
            | none => []
        (mapInsert reg d.id d, bcEvents ++ [DeviceEvent.DeviceUpdated d])
  | none => (mapInsert reg d.id d, [DeviceEvent.DeviceAdded d])

/-- The full for-loop of `update_device_list` over the incoming list. -/
def processDevices (reg : RegT) : List Device → RegT × List DeviceEvent
  | [] => (reg, [])
  | d :: rest =>
      let r1 := processOne reg d
      let r2 := processDevices r1.1 rest
      (r2.1, r1.2 ++ r2.2)

/-- The removal sweep of `update_device_list`: the stored keys absent from
the incoming id set. -/
def removedIds (reg1 : RegT) (ids : List String) : List String :=
  (reg1.map Prod.fst).filter (fun k => !(ids.contains k))

/-- Mirrors `update_device_list`: run the loop, then remove every stored id absent
from the incoming id set, emitting `DeviceRemoved` for each. -/
def update_device_list (reg : RegT) (new_devices : List Device) :
    RegT × List DeviceEvent :=
  let current_device_ids := new_devices.map (fun d => d.id)
  let r := processDevices reg new_devices
  ((r.1.filter fun p => current_device_ids.contains p.1),
    r.2 ++ (removedIds r.1 current_device_ids).map DeviceEvent.DeviceRemoved)

/-- The id an event concerns. -/
def eventId : DeviceEvent → String
  | DeviceEvent.DeviceAdded d => d.id
  | DeviceEvent.DeviceUpdated d => d.id
  | DeviceEvent.DeviceRemoved i => i
  | DeviceEvent.BatteryChanged i _ => i

/-- The events of one pass that concern a given id. -/
def eventsFor (i : String) (evs : List DeviceEvent) : List DeviceEvent :=
  evs.filter (fun e => eventId e == i)

/-- The per-device events of the diff as a function of the stored record,
used to state what `update_device_list` emits for a single id. -/
def perDeviceEvents (stored : Option Device) (d : Device) : List DeviceEvent :=
  match stored with
  | some existing =>
      if existing = d then []
      else
        (if existing.battery_level = d.battery_level then []
         else
           match d.battery_level with
           | some level => [DeviceEvent.BatteryChanged d.id level]
           | none => []) ++ [DeviceEvent.DeviceUpdated d]
  | none => [DeviceEvent.DeviceAdded d]

/-! ## NotificationGate (crates/notifications/src/lib.rs)

`SystemTime` is embedded as a Nat timestamp passed in explicitly;
`SystemTime::now().duration_since(last)` is `Ok (now - last)` when
`last ≤ now` and `Err` otherwise, matching the source branch that treats
the error as not suppressed.  The external `notification.show()` call is
embedded as an explicit Bool success parameter. -/

inductive NotificationType where
  | LowBattery (device : Device) (threshold : Nat)
  | DeviceConnected (device : Device)
  | DeviceDisconnected (device : Device)
deriving DecidableEq, Repr

structure NotificationRecord where
  timestamp : Nat
  notification_type : NotificationType
  sent : Bool
deriving DecidableEq, Repr

/-- The outcome of `send_notification`: `Ok` is `Sent`, the three error
returns are the other variants. -/
inductive SendOutcome where
  | Sent
  | Disabled
  | Suppressed
  | Failed
deriving DecidableEq, Repr

/-- The `DesktopNotificationManager` state. -/
structure DesktopNotificationManager where
  enabled : Bool
  suppression_duration : Nat
  notification_log : List NotificationRecord
  last_low_battery_alert : List (String × Nat)
  last_connection_alert : List (String × Nat)
  max_log_size : Nat
deriving DecidableEq, Repr

/-- Mirrors `DesktopNotificationManager::new()`. -/
def DesktopNotificationManager.new : DesktopNotificationManager :=
  { enabled := true, suppression_duration := 300, notification_log := [],
    last_low_battery_alert := [], last_connection_alert := [],
    max_log_size := 1000 }

/-- Mirrors `get_device_id_from_notification`. -/
def notif_device_id : NotificationType → String
  | NotificationType.LowBattery d _ => d.id
  | NotificationType.DeviceConnected d => d.id
  | NotificationType.DeviceDisconnected d => d.id

/-- Mirrors `is_suppressed`: the per-classification map is consulted, and the key is
suppressed when a last-alert time exists, lies in the past, and is closer
than the suppression window. -/
def is_suppressed (m : DesktopNotificationManager) (now : Nat)
    (device_id : String) (nt : NotificationType) : Bool :=
  match nt with
  | NotificationType.LowBattery _ _ =>
      match mapFind m.last_low_battery_alert device_id with
      | some last =>
          if last ≤ now then decide (now - last < m.suppression_duration) else false
      | none => false
  | NotificationType.DeviceConnected _ =>
      match mapFind m.last_connection_alert device_id with
      | some last =>
          if last ≤ now then decide (now - last < m.suppression_duration) else false
      | none => false
  | NotificationType.DeviceDisconnected _ =>
      match mapFind m.last_connection_alert device_id with
      | some last =>
          if last ≤ now then decide (now - last < m.suppression_duration) else false
      | none => false

/-- Mirrors `update_suppression_state`: stamp the key in the per-classification map. -/
def update_suppression_state (m : DesktopNotificationManager) (now : Nat)
    (device_id : String) (nt : NotificationType) : DesktopNotificationManager :=
  match nt with
  | NotificationType.LowBattery _ _ =>
      { m with last_low_battery_alert := mapInsert m.last_low_battery_alert device_id now }
  | NotificationType.DeviceConnected _ =>
      { m with last_connection_alert := mapInsert m.last_connection_alert device_id now }
  | NotificationType.DeviceDisconnected _ =>
      { m with last_connection_alert := mapInsert m.last_connection_alert device_id now }

/-- Mirrors `add_to_log`: append the record, then trim the oldest entries once the
log exceeds its capacity. -/
def add_to_log (m : DesktopNotificationManager) (now : Nat)
    (nt : NotificationType) (sent : Bool) : DesktopNotificationManager :=
  let log := m.notification_log ++ [{ timestamp := now, notification_type := nt, sent := sent }]
  let log := if log.length > m.max_log_size then log.drop (log.length - m.max_log_size) else log
  { m with notification_log := log }

/-- Mirrors `send_notification`: disabled, then suppression, then the external show
call; the suppression stamp is only written on external success. -/
def send_notification (m : DesktopNotificationManager) (now : Nat)
    (nt : NotificationType) (externalOk : Bool) :
    SendOutcome × DesktopNotificationManager :=
  if !m.enabled then
    (SendOutcome.Disabled, add_to_log m now nt false)
  else
    let device_id := notif_device_id nt
    if is_suppressed m now device_id nt then
      (SendOutcome.Suppressed, add_to_log m now nt false)
    else if externalOk then
      let m1 := update_suppression_state m now device_id nt
      (SendOutcome.Sent, add_to_log m1 now nt true)
    else
      (SendOutcome.Failed, add_to_log m now nt false)

/-- Whether a `send_notification` call reaches the external notifier:
enabled and not suppressed. -/
def notifier_invoked (m : DesktopNotificationManager) (now : Nat)
    (nt : NotificationType) : Bool :=
  m.enabled && !(is_suppressed m now (notif_device_id nt) nt)

/-- Mirrors `clear_log`: clears the audit log and both suppression maps. -/
def clear_log (m : DesktopNotificationManager) : DesktopNotificationManager :=
  { m with
    notification_log := [], last_low_battery_alert := [],
    last_connection_alert := [] }

/-! ## MonitoringScheduler (crates/core/src/device_monitor.rs, start_monitoring)

The `JoinHandle` and the oneshot sender are embedded as `Option Unit`
presence flags; spawning is embedded as setting the flag.  The function
returns the (possibly unchanged) state together with an optional error. -/

structure MonitorState where
  devices : RegT
  monitoring_task : Option Unit
  shutdown_sender : Option Unit
deriving DecidableEq

/-- Mirrors `start_monitoring`: refuse with `MonitorAlreadyRunning` when a task
exists, otherwise install the shutdown channel and spawn the loop task. -/
def start_monitoring (s : MonitorState) : MonitorState × Option CoreErrorM :=
  if s.monitoring_task.isSome then
    (s, some CoreErrorM.MonitorAlreadyRunning)
  else
    ({ s with shutdown_sender := some (), monitoring_task := some () }, none)

/-- Concrete device used to instantiate witnesses. -/
def devW (battery : Option Nat) : Device :=
  { id := "A", name := "Test Mouse", device_type := DeviceType.Mouse,
    connection_type := ConnectionType.Bluetooth, battery_level := battery,
    connection_status := ConnectionStatus.Connected, last_seen := 5 }

/-- Does the battery value, when present, lie within the u8 range? -/
def batteryWithinU8 (d : Device) : Bool :=
  match d.battery_level with
  | some l => decide (l ≤ 255)
  | none => true

/-- Does the battery value, when present, lie within [0,100]? -/
def batteryWithin100 (d : Device) : Bool :=
  match d.battery_level with
  | some l => decide (l ≤ 100)
  | none => true

/-- The device materialized from an unnamed Battery power-supply entry, as
composed by `create_power_supply_device` for concrete inputs. -/
def psDev (entry_name : String) (battery : Option Nat) : Device :=
  { id := "power_supply_" ++ entry_name, name := entry_name,
    device_type := DeviceType.Unknown, connection_type := ConnectionType.USB,
    battery_level := battery, connection_status := ConnectionStatus.Connected,
    last_seen := 0 }


/-! ## Association-list map lemmas -/

theorem mapFind_mapInsert_self {β : Type} (m : List (String × β)) (k : String) (v : β) :
    mapFind (mapInsert m k v) k = some v := by
  induction m with
  | nil => simp [mapInsert, mapFind]
  | cons h t ih =>
      obtain ⟨k1, v1⟩ := h
      by_cases hk : k1 = k
      · simp [mapInsert, hk, mapFind]
      · simp [mapInsert, hk, mapFind, ih]

theorem mapFind_mapInsert_ne {β : Type} (m : List (String × β)) (k k1 : String) (v : β)
    (h : k1 ≠ k) : mapFind (mapInsert m k v) k1 = mapFind m k1 := by
  induction m with
  | nil => simp [mapInsert, mapFind, Ne.symm h]
  | cons hd t ih =>
      obtain ⟨k2, v2⟩ := hd
      by_cases hk : k2 = k
      · subst hk; simp [mapInsert, mapFind, h, Ne.symm h]
      · simp [mapInsert, hk, mapFind, ih]

theorem mem_keys_mapInsert {β : Type} (m : List (String × β)) (k a : String) (v : β) :
    a ∈ (mapInsert m k v).map Prod.fst ↔ a = k ∨ a ∈ m.map Prod.fst := by
  induction m with
  | nil => simp [mapInsert]
  | cons hd t ih =>
      obtain ⟨k2, v2⟩ := hd
      by_cases hk : k2 = k
      · subst hk; simp [mapInsert]
      · simp [mapInsert, hk, ih]; tauto

theorem mem_keys_of_mapFind {β : Type} (m : List (String × β)) (k : String) (v : β)
    (h : mapFind m k = some v) : k ∈ m.map Prod.fst := by
  induction m with
  | nil => simp [mapFind] at h
  | cons hd t ih =>
      obtain ⟨k2, v2⟩ := hd
      by_cases hk : k2 = k
      · subst hk; simp
      · simp only [mapFind] at h
        rw [if_neg hk] at h
        simp [List.mem_cons, ih h]

theorem mapFind_filter_keys {β : Type} (q : String → Bool) (m : List (String × β))
    (k : String) (h : q k = true) :
    mapFind (m.filter fun p => q p.1) k = mapFind m k := by
  induction m with
  | nil => simp
  | cons hd t ih =>
      obtain ⟨k2, v2⟩ := hd
      by_cases hk : k2 = k
      · subst hk; simp [List.filter_cons, h, mapFind]
      · by_cases hq : q k2 = true
        · simp [List.filter_cons, hq, mapFind, hk, ih]
        · simp [List.filter_cons, hq, mapFind, hk, ih]

theorem mem_keys_filter {β : Type} (q : String → Bool) (m : List (String × β)) (k : String) :
    k ∈ (m.filter fun p => q p.1).map Prod.fst ↔ k ∈ m.map Prod.fst ∧ q k = true := by
  constructor
  · intro hm
    rcases List.mem_map.mp hm with ⟨p, hp, rfl⟩
    rcases List.mem_filter.mp hp with ⟨hpm, hpq⟩
    exact ⟨List.mem_map.mpr ⟨p, hpm, rfl⟩, hpq⟩
  · rintro ⟨hm, hq⟩
    rcases List.mem_map.mp hm with ⟨p, hp, rfl⟩
    exact List.mem_map.mpr ⟨p, List.mem_filter.mpr ⟨hp, hq⟩, rfl⟩

/-! ## Diff lemmas -/

theorem perDeviceEvents_eventId (stored : Option Device) (d : Device) (e : DeviceEvent)
    (he : e ∈ perDeviceEvents stored d) : eventId e = d.id := by
  cases stored with
  | none =>
      simp [perDeviceEvents] at he
      subst he; rfl
  | some existing =>
      by_cases hd : existing = d
      · simp [perDeviceEvents, hd] at he
      · by_cases hb : existing.battery_level = d.battery_level
        · simp [perDeviceEvents, hd, hb] at he
          subst he; rfl
        · cases hl : d.battery_level with
          | none =>
              simp [perDeviceEvents, hd, hb, hl] at he
              subst he; rfl
          | some level =>
              rw [hl] at hb
              simp [perDeviceEvents, hd, hb, hl, List.mem_cons] at he
              rcases he with rfl | rfl <;> rfl

theorem processOne_events (reg : RegT) (d : Device) :
    (processOne reg d).2 = perDeviceEvents (mapFind reg d.id) d := by
  cases hfind : mapFind reg d.id with
  | none => simp [processOne, perDeviceEvents, hfind]
  | some existing =>
      by_cases he : existing = d
      · simp [processOne, perDeviceEvents, hfind, he]
      · simp [processOne, perDeviceEvents, hfind, he]

theorem processOne_find_self (reg : RegT) (d : Device) :
    mapFind (processOne reg d).1 d.id = some d := by
  cases hfind : mapFind reg d.id with
  | none => simp [processOne, hfind, mapFind_mapInsert_self]
  | some existing =>
      by_cases he : existing = d
      · simp [processOne, hfind, he]
      · simp [processOne, hfind, he, mapFind_mapInsert_self]

theorem processOne_find_ne (reg : RegT) (d : Device) (k : String) (h : k ≠ d.id) :
    mapFind (processOne reg d).1 k = mapFind reg k := by
  cases hfind : mapFind reg d.id with
  | none => simp [processOne, hfind, mapFind_mapInsert_ne _ _ _ _ h]
  | some existing =>
      by_cases he : existing = d
      · simp [processOne, hfind, he]
      · simp [processOne, hfind, he, mapFind_mapInsert_ne _ _ _ _ h]

theorem processOne_keys (reg : RegT) (d : Device) (k : String) :
    k ∈ (processOne reg d).1.map Prod.fst ↔ k = d.id ∨ k ∈ reg.map Prod.fst := by
  cases hfind : mapFind reg d.id with
  | none =>
      have h1 : (processOne reg d).1 = mapInsert reg d.id d := by
        simp [processOne, hfind]
      rw [h1, mem_keys_mapInsert]
  | some existing =>
      by_cases he : existing = d
      · have h1 : (processOne reg d).1 = reg := by
          simp [processOne, hfind, he]
        rw [h1]
        constructor
        · exact Or.inr
        · rintro (rfl | hm)
          · exact mem_keys_of_mapFind _ _ _ hfind
          · exact hm
      · have h1 : (processOne reg d).1 = mapInsert reg d.id d := by
          simp [processOne, hfind, he]
        rw [h1, mem_keys_mapInsert]

theorem processDevices_eventId (ds : List Device) : ∀ (reg : RegT) (e : DeviceEvent),
    e ∈ (processDevices reg ds).2 → eventId e ∈ ds.map (fun x => x.id) := by
  induction ds with
  | nil => intro reg e he; simp [processDevices] at he
  | cons d rest ih =>
      intro reg e he
      simp only [processDevices, List.mem_append] at he
      rw [List.map_cons]
      rcases he with h1 | h2
      · rw [processOne_events] at h1
        exact List.mem_cons.mpr (Or.inl (perDeviceEvents_eventId _ _ _ h1))
      · exact List.mem_cons.mpr (Or.inr (ih _ _ h2))

theorem processDevices_find_ne (ds : List Device) : ∀ (reg : RegT) (k : String),
    k ∉ ds.map (fun x => x.id) →
    mapFind (processDevices reg ds).1 k = mapFind reg k := by
  induction ds with
  | nil => intro reg k _; simp [processDevices]
  | cons d rest ih =>
      intro reg k h
      simp only [List.map_cons, List.mem_cons, not_or] at h
      simp only [processDevices]
      rw [ih _ _ h.2, processOne_find_ne _ _ _ h.1]

theorem processDevices_keys (ds : List Device) : ∀ (reg : RegT) (k : String),
    k ∈ (processDevices reg ds).1.map Prod.fst ↔
      k ∈ reg.map Prod.fst ∨ k ∈ ds.map (fun x => x.id) := by
  induction ds with
  | nil => intro reg k; simp [processDevices]
  | cons d rest ih =>
      intro reg k
      simp only [processDevices]
      rw [ih, processOne_keys]
      simp [List.mem_cons]
      tauto

theorem processDevices_append (xs ys : List Device) : ∀ reg : RegT,
    processDevices reg (xs ++ ys) =
      ((processDevices (processDevices reg xs).1 ys).1,
        (processDevices reg xs).2 ++ (processDevices (processDevices reg xs).1 ys).2) := by
  induction xs with
  | nil => intro reg; simp [processDevices]
  | cons d rest ih =>
      intro reg
      simp [processDevices, ih, List.append_assoc]

theorem eventsFor_append (t : String) (l1 l2 : List DeviceEvent) :
    eventsFor t (l1 ++ l2) = eventsFor t l1 ++ eventsFor t l2 :=
  List.filter_append ..

theorem eventsFor_processDevices_nil (ds : List Device) (reg : RegT) (t : String)
    (ht : t ∉ ds.map (fun x => x.id)) :
    eventsFor t (processDevices reg ds).2 = [] := by
  simp only [eventsFor]
  apply List.filter_eq_nil_iff.mpr
  intro e he
  simp only [beq_iff_eq]
  intro hc
  apply ht
  rw [← hc]
  exact processDevices_eventId ds reg e he

theorem eventsFor_self (t : String) (evs : List DeviceEvent)
    (h : ∀ e ∈ evs, eventId e = t) : eventsFor t evs = evs := by
  simp only [eventsFor]
  apply List.filter_eq_self.mpr
  intro e he
  simp only [beq_iff_eq]
  exact h e he

theorem eventsFor_processDevices (d : Device) (pre post : List Device) (reg : RegT)
    (hpre : d.id ∉ pre.map (fun x => x.id)) (hpost : d.id ∉ post.map (fun x => x.id)) :
    eventsFor d.id (processDevices reg (pre ++ d :: post)).2 =
      perDeviceEvents (mapFind reg d.id) d := by
  rw [processDevices_append pre (d :: post) reg]
  show eventsFor d.id ((processDevices reg pre).2 ++
      ((processOne (processDevices reg pre).1 d).2 ++
        (processDevices (processOne (processDevices reg pre).1 d).1 post).2)) = _
  rw [eventsFor_append, eventsFor_append]
  rw [eventsFor_processDevices_nil pre reg d.id hpre]
  rw [eventsFor_processDevices_nil post _ d.id hpost]
  rw [processOne_events, processDevices_find_ne pre reg d.id hpre]
  rw [eventsFor_self d.id _ (fun e he => perDeviceEvents_eventId _ _ _ he)]
  simp

theorem find_processDevices_self (d : Device) (pre post : List Device) (reg : RegT)
    (hpost : d.id ∉ post.map (fun x => x.id)) :
    mapFind (processDevices reg (pre ++ d :: post)).1 d.id = some d := by
  rw [processDevices_append pre (d :: post) reg]
  show mapFind (processDevices (processOne (processDevices reg pre).1 d).1 post).1 d.id = some d
  rw [processDevices_find_ne post _ _ hpost, processOne_find_self]

theorem eventsFor_removed (reg1 : RegT) (ids : List String) (t : String) (ht : t ∈ ids) :
    eventsFor t ((removedIds reg1 ids).map DeviceEvent.DeviceRemoved) = [] := by
  simp only [eventsFor]
  apply List.filter_eq_nil_iff.mpr
  intro e he
  rcases List.mem_map.mp he with ⟨k, hk, rfl⟩
  rcases List.mem_filter.mp hk with ⟨_, hknot⟩
  simp only [Bool.not_eq_true'] at hknot
  simp only [eventId, beq_iff_eq]
  intro hc
  subst hc
  have hc2 : ids.contains k = true := List.elem_iff.mpr ht
  rw [hc2] at hknot
  exact Bool.noConfusion hknot

theorem update_device_list_snd (reg : RegT) (ds : List Device) :
    (update_device_list reg ds).2 =
      (processDevices reg ds).2 ++
        (removedIds (processDevices reg ds).1 (ds.map (fun d => d.id))).map
          DeviceEvent.DeviceRemoved := rfl

theorem update_device_list_fst (reg : RegT) (ds : List Device) :
    (update_device_list reg ds).1 =
      (processDevices reg ds).1.filter
        (fun p => (ds.map (fun d => d.id)).contains p.1) := rfl

/-- Shared decomposition of one diff pass at a single id: the events the
pass emits for that id, and the record stored under it afterwards. -/
theorem update_decomp (d : Device) (pre post : List Device) (reg : RegT)
    (hpre : d.id ∉ pre.map (fun x => x.id)) (hpost : d.id ∉ post.map (fun x => x.id)) :
    eventsFor d.id (update_device_list reg (pre ++ d :: post)).2 =
      perDeviceEvents (mapFind reg d.id) d ∧
    mapFind (update_device_list reg (pre ++ d :: post)).1 d.id = some d := by
  have hmem : d.id ∈ (pre ++ d :: post).map (fun x => x.id) := by
    simp
  constructor
  · rw [update_device_list_snd, eventsFor_append]
    rw [eventsFor_processDevices d pre post reg hpre hpost]
    rw [eventsFor_removed _ _ _ hmem, List.append_nil]
  · rw [update_device_list_fst]
    have hc : ((pre ++ d :: post).map (fun x => x.id)).contains d.id = true :=
      List.elem_iff.mpr hmem
    have h2 := mapFind_filter_keys
      (fun k => ((pre ++ d :: post).map (fun x => x.id)).contains k)
      (processDevices reg (pre ++ d :: post)).1 d.id hc
    rw [h2]
    exact find_processDevices_self d pre post reg hpost

/-- Claim C1: after `update_device_list`, the set of ids stored in the
registry map exactly equals the set of ids occurring in the incoming
device list. -/
theorem registry_ids_match_scan (reg : RegT) (ds : List Device) (k : String) :
    k ∈ (update_device_list reg ds).1.map Prod.fst ↔ k ∈ ds.map (fun d => d.id) := by
  rw [update_device_list_fst, mem_keys_filter, processDevices_keys]
  constructor
  · rintro ⟨_, hc⟩
    exact List.elem_iff.mp hc
  · intro hk
    exact ⟨Or.inr hk, List.elem_iff.mpr hk⟩

/-- Claim C4: for an incoming device of a scan pass whose id is known and
whose record differs from the stored one, the diff emits `BatteryChanged`
first — only when the battery value differs and the new value is present —
then `DeviceUpdated`, and replaces the stored record; a battery change
`some 30` to `some 15` with all else unchanged is the witness instance. -/
theorem diff_changed_device_events (d old : Device) (pre post : List Device) (reg : RegT)
    (hpre : d.id ∉ pre.map (fun x => x.id)) (hpost : d.id ∉ post.map (fun x => x.id))
    (hfind : mapFind reg d.id = some old) (hne : old ≠ d) :
    eventsFor d.id (update_device_list reg (pre ++ d :: post)).2 =
      (if old.battery_level = d.battery_level then []
       else
         match d.battery_level with
         | some level => [DeviceEvent.BatteryChanged d.id level]
         | none => []) ++ [DeviceEvent.DeviceUpdated d] ∧
    mapFind (update_device_list reg (pre ++ d :: post)).1 d.id = some d := by
  have h := update_decomp d pre post reg hpre hpost
  rw [hfind] at h
  refine ⟨?_, h.2⟩
  rw [h.1]
  simp [perDeviceEvents, hne]

/-- Witness for the battery `some 30` to `some 15` instance of the diff
claim: exactly one BatteryChanged(A, 15) followed by one Updated. -/
theorem diff_changed_device_events_witness :
    mapFind [("A", devW (some 30))] (devW (some 15)).id = some (devW (some 30)) ∧
    devW (some 30) ≠ devW (some 15) ∧
    eventsFor (devW (some 15)).id
        (update_device_list [("A", devW (some 30))] ([] ++ devW (some 15) :: [])).2 =
      [DeviceEvent.BatteryChanged "A" 15, DeviceEvent.DeviceUpdated (devW (some 15))] ∧
    mapFind (update_device_list [("A", devW (some 30))] ([] ++ devW (some 15) :: [])).1
        (devW (some 15)).id = some (devW (some 15)) := by
  have h := diff_changed_device_events (devW (some 15)) (devW (some 30)) [] []
    [("A", devW (some 30))] (by decide) (by decide) (by decide) (by decide)
  refine ⟨by decide, by decide, ?_, h.2⟩
  rw [h.1]
  decide

/-- Claim C7: an incoming device of a scan pass that is field-wise
identical to its stored record yields zero events for that id, and the
stored record is unchanged. -/
theorem diff_unchanged_device_no_events (d : Device) (pre post : List Device) (reg : RegT)
    (hpre : d.id ∉ pre.map (fun x => x.id)) (hpost : d.id ∉ post.map (fun x => x.id))
    (hfind : mapFind reg d.id = some d) :
    eventsFor d.id (update_device_list reg (pre ++ d :: post)).2 = [] ∧
    mapFind (update_device_list reg (pre ++ d :: post)).1 d.id = some d := by
  have h := update_decomp d pre post reg hpre hpost
  rw [hfind] at h
  refine ⟨?_, h.2⟩
  rw [h.1]
  simp [perDeviceEvents]

/-- Witness for the unchanged-device claim at a concrete registry. -/
theorem diff_unchanged_device_no_events_witness :
    mapFind [("A", devW (some 30))] (devW (some 30)).id = some (devW (some 30)) ∧
    eventsFor (devW (some 30)).id
        (update_device_list [("A", devW (some 30))] ([] ++ devW (some 30) :: [])).2 = [] ∧
    mapFind (update_device_list [("A", devW (some 30))] ([] ++ devW (some 30) :: [])).1
        (devW (some 30)).id = some (devW (some 30)) := by
  have h := diff_unchanged_device_no_events (devW (some 30)) [] []
    [("A", devW (some 30))] (by decide) (by decide) (by decide)
  exact ⟨by decide, h.1, h.2⟩

/-- Claim C8: an incoming device of a scan pass whose id is not yet in the
registry yields exactly one `DeviceAdded` event — and in particular no
`DeviceUpdated` — for that id, and is inserted into the registry. -/
theorem diff_new_device_added (d : Device) (pre post : List Device) (reg : RegT)
    (hpre : d.id ∉ pre.map (fun x => x.id)) (hpost : d.id ∉ post.map (fun x => x.id))
    (hfind : mapFind reg d.id = none) :
    eventsFor d.id (update_device_list reg (pre ++ d :: post)).2 =
      [DeviceEvent.DeviceAdded d] ∧
    mapFind (update_device_list reg (pre ++ d :: post)).1 d.id = some d := by
  have h := update_decomp d pre post reg hpre hpost
  rw [hfind] at h
  refine ⟨?_, h.2⟩
  rw [h.1]
  rfl

/-- Witness for the new-device claim at an empty registry. -/
theorem diff_new_device_added_witness :
    mapFind ([] : RegT) (devW (some 30)).id = none ∧
    eventsFor (devW (some 30)).id
        (update_device_list ([] : RegT) ([] ++ devW (some 30) :: [])).2 =
      [DeviceEvent.DeviceAdded (devW (some 30))] ∧
    mapFind (update_device_list ([] : RegT) ([] ++ devW (some 30) :: [])).1
        (devW (some 30)).id = some (devW (some 30)) := by
  have h := diff_new_device_added (devW (some 30)) [] [] ([] : RegT) (by decide) (by decide)
    (by decide)
  exact ⟨by decide, h.1, h.2⟩

/-- Claim C3: `scan_all_devices` never propagates a source error: it
returns `ok` with the concatenation of the successful sources; a
Bluetooth fault alongside a two-device peripheral result yields exactly
those two devices. -/
theorem scan_all_degrades (btResult usbResult : Except CoreErrorM (List Device))
    (e : CoreErrorM) (d1 d2 : Device) :
    scan_all_devices btResult usbResult =
      Except.ok (okContribution btResult ++ okContribution usbResult) ∧
    scan_all_devices (Except.error e) (Except.ok [d1, d2]) = Except.ok [d1, d2] := by
  constructor
  · cases btResult <;> cases usbResult <;> simp [scan_all_devices, okContribution]
  · simp [scan_all_devices]

/-! ## NotificationGate lemmas and claims -/

theorem add_to_log_enabled (m : DesktopNotificationManager) (now : Nat)
    (nt : NotificationType) (s : Bool) : (add_to_log m now nt s).enabled = m.enabled := rfl

theorem add_to_log_duration (m : DesktopNotificationManager) (now : Nat)
    (nt : NotificationType) (s : Bool) :
    (add_to_log m now nt s).suppression_duration = m.suppression_duration := rfl

theorem add_to_log_last_low (m : DesktopNotificationManager) (now : Nat)
    (nt : NotificationType) (s : Bool) :
    (add_to_log m now nt s).last_low_battery_alert = m.last_low_battery_alert := rfl

theorem add_to_log_last_conn (m : DesktopNotificationManager) (now : Nat)
    (nt : NotificationType) (s : Bool) :
    (add_to_log m now nt s).last_connection_alert = m.last_connection_alert := rfl

theorem add_to_log_max (m : DesktopNotificationManager) (now : Nat)
    (nt : NotificationType) (s : Bool) :
    (add_to_log m now nt s).max_log_size = m.max_log_size := rfl

theorem update_supp_enabled (m : DesktopNotificationManager) (now : Nat) (k : String)
    (nt : NotificationType) : (update_suppression_state m now k nt).enabled = m.enabled := by
  cases nt <;> rfl

theorem update_supp_duration (m : DesktopNotificationManager) (now : Nat) (k : String)
    (nt : NotificationType) :
    (update_suppression_state m now k nt).suppression_duration = m.suppression_duration := by
  cases nt <;> rfl

theorem update_supp_max (m : DesktopNotificationManager) (now : Nat) (k : String)
    (nt : NotificationType) :
    (update_suppression_state m now k nt).max_log_size = m.max_log_size := by
  cases nt <;> rfl

/-- Lemma: `add_to_log` leaves suppression behaviour untouched. -/
theorem is_suppressed_add_to_log (m : DesktopNotificationManager) (now2 : Nat)
    (nt : NotificationType) (s : Bool) (now : Nat) (k : String) (n2 : NotificationType) :
    is_suppressed (add_to_log m now2 nt s) now k n2 = is_suppressed m now k n2 := by
  cases n2 <;> rfl

/-- After stamping the key at time `t`, the key is suppressed at `now`
exactly when `t` is in the past and closer than the window. -/
theorem is_suppressed_after_update (m : DesktopNotificationManager) (t now : Nat)
    (n : NotificationType) :
    is_suppressed (update_suppression_state m t (notif_device_id n) n) now
        (notif_device_id n) n =
      (decide (t ≤ now) && decide (now - t < m.suppression_duration)) := by
  cases n <;>
    simp [is_suppressed, update_suppression_state, notif_device_id,
      mapFind_mapInsert_self]

/-- The enabled and not-suppressed send path in closed form. -/
theorem send_sent_state (m : DesktopNotificationManager) (t : Nat) (n : NotificationType)
    (he : m.enabled = true)
    (hfresh : is_suppressed m t (notif_device_id n) n = false) :
    send_notification m t n true =
      (SendOutcome.Sent,
        add_to_log (update_suppression_state m t (notif_device_id n) n) t n true) := by
  simp [send_notification, he, hfresh]

/-- The enabled-but-suppressed send path in closed form. -/
theorem send_suppressed_state (m1 : DesktopNotificationManager) (t : Nat)
    (n : NotificationType) (b : Bool) (hen : m1.enabled = true)
    (hs : is_suppressed m1 t (notif_device_id n) n = true) :
    send_notification m1 t n b = (SendOutcome.Suppressed, add_to_log m1 t n false) := by
  simp [send_notification, hen, hs]

/-- The record just appended by `add_to_log` survives the ring-buffer trim
whenever the capacity is at least one. -/
theorem add_to_log_getLast (m : DesktopNotificationManager) (now : Nat)
    (nt : NotificationType) (s : Bool) (hmax : 1 ≤ m.max_log_size) :
    (add_to_log m now nt s).notification_log.getLast? =
      some { timestamp := now, notification_type := nt, sent := s } := by
  simp only [add_to_log]
  by_cases h : (m.notification_log ++
      [({ timestamp := now, notification_type := nt, sent := s } :
        NotificationRecord)]).length > m.max_log_size
  · rw [if_pos h]
    have hlen : (m.notification_log ++
        [({ timestamp := now, notification_type := nt, sent := s } :
          NotificationRecord)]).length = m.notification_log.length + 1 := by
      simp
    rw [hlen]
    have hle : m.notification_log.length + 1 - m.max_log_size ≤ m.notification_log.length := by
      omega
    rw [List.drop_append_of_le_length hle]
    exact List.getLast?_concat ..
  · rw [if_neg h]
    exact List.getLast?_concat ..

/-- Claim C2: for one suppression key, a successful send followed within
the window by a second send yields `Sent` then `Suppressed` with exactly
one external notification issued and the second call logged as unsent; a
second send at or past the window yields `Sent` again; and a call that
does not return `Sent` never updates the suppression timestamps. -/
theorem notification_gate_suppression (m : DesktopNotificationManager)
    (n : NotificationType) (t1 t2 t3 : Nat) (b2 : Bool)
    (he : m.enabled = true)
    (hfresh : is_suppressed m t1 (notif_device_id n) n = false)
    (h12 : t1 ≤ t2) (hlt : t2 - t1 < m.suppression_duration)
    (h13 : t1 ≤ t3) (hge : m.suppression_duration ≤ t3 - t1)
    (hmax : 1 ≤ m.max_log_size) :
    (send_notification m t1 n true).1 = SendOutcome.Sent ∧
    (send_notification (send_notification m t1 n true).2 t2 n b2).1 =
      SendOutcome.Suppressed ∧
    notifier_invoked m t1 n = true ∧
    notifier_invoked (send_notification m t1 n true).2 t2 n = false ∧
    (send_notification (send_notification m t1 n true).2 t2 n b2).2.notification_log.getLast?
      = some { timestamp := t2, notification_type := n, sent := false } ∧
    (send_notification (send_notification m t1 n true).2 t3 n true).1 = SendOutcome.Sent ∧
    (∀ (mm : DesktopNotificationManager) (t : Nat) (bb : Bool),
      (send_notification mm t n bb).1 ≠ SendOutcome.Sent →
        (send_notification mm t n bb).2.last_low_battery_alert = mm.last_low_battery_alert ∧
        (send_notification mm t n bb).2.last_connection_alert = mm.last_connection_alert) := by
  have hm1 := send_sent_state m t1 n he hfresh
  have hen1 : (send_notification m t1 n true).2.enabled = true := by
    rw [hm1, add_to_log_enabled, update_supp_enabled, he]
  have hsup : ∀ now, is_suppressed (send_notification m t1 n true).2 now
      (notif_device_id n) n =
      (decide (t1 ≤ now) && decide (now - t1 < m.suppression_duration)) := by
    intro now
    rw [hm1]
    rw [is_suppressed_add_to_log]
    exact is_suppressed_after_update m t1 now n
  have hs2 : is_suppressed (send_notification m t1 n true).2 t2 (notif_device_id n) n
      = true := by
    rw [hsup t2]
    simp [h12, hlt]
  have hs3 : is_suppressed (send_notification m t1 n true).2 t3 (notif_device_id n) n
      = false := by
    rw [hsup t3]
    simp [h13]
    omega
  refine ⟨by rw [hm1], ?_, ?_, ?_, ?_, ?_, ?_⟩
  · rw [send_suppressed_state _ t2 n b2 hen1 hs2]
  · simp [notifier_invoked, he, hfresh]
  · simp [notifier_invoked, hen1, hs2]
  · rw [send_suppressed_state _ t2 n b2 hen1 hs2]
    apply add_to_log_getLast
    rw [hm1, add_to_log_max, update_supp_max]
    exact hmax
  · rw [send_sent_state _ t3 n hen1 hs3]
  · intro mm t bb hne
    by_cases he2 : mm.enabled = true
    · by_cases hsu : is_suppressed mm t (notif_device_id n) n = true
      · simp [send_notification, he2, hsu, add_to_log_last_low, add_to_log_last_conn]
      · cases bb with
        | false =>
            simp [send_notification, he2, hsu, add_to_log_last_low, add_to_log_last_conn]
        | true =>
            exfalso
            apply hne
            simp [send_notification, he2, hsu]
    · simp [send_notification, he2, add_to_log_last_low, add_to_log_last_conn]

/-- Witness for the suppression-window claim with the default manager, a
low-battery notification, and times 0, 100 and 300 against window 300. -/
theorem notification_gate_suppression_witness :
    is_suppressed DesktopNotificationManager.new 0
        (notif_device_id (NotificationType.LowBattery (devW (some 15)) 20))
        (NotificationType.LowBattery (devW (some 15)) 20) = false ∧
    (send_notification DesktopNotificationManager.new 0
        (NotificationType.LowBattery (devW (some 15)) 20) true).1 = SendOutcome.Sent ∧
    (send_notification (send_notification DesktopNotificationManager.new 0
        (NotificationType.LowBattery (devW (some 15)) 20) true).2 100
        (NotificationType.LowBattery (devW (some 15)) 20) false).1 =
      SendOutcome.Suppressed ∧
    (send_notification (send_notification DesktopNotificationManager.new 0
        (NotificationType.LowBattery (devW (some 15)) 20) true).2 300
        (NotificationType.LowBattery (devW (some 15)) 20) true).1 = SendOutcome.Sent := by
  have h := notification_gate_suppression DesktopNotificationManager.new
    (NotificationType.LowBattery (devW (some 15)) 20) 0 100 300 false rfl (by decide)
    (by decide) (by decide) (by decide) (by decide) (by decide)
  exact ⟨by decide, h.1, h.2.1, h.2.2.2.2.2.1⟩

/-- Claim C10: `clear_log` clears the suppression timestamps along with the
audit log, so a send immediately after `clear_log` is never `Suppressed`,
however recently the key was last notified. -/
theorem clear_log_resets_suppression (m : DesktopNotificationManager) (now : Nat)
    (n : NotificationType) (b : Bool) :
    is_suppressed (clear_log m) now (notif_device_id n) n = false ∧
    (send_notification (clear_log m) now n b).1 ≠ SendOutcome.Suppressed := by
  have h1 : is_suppressed (clear_log m) now (notif_device_id n) n = false := by
    cases n <;> simp [is_suppressed, clear_log, mapFind]
  refine ⟨h1, ?_⟩
  by_cases he : (clear_log m).enabled = true
  · cases b <;> simp [send_notification, he, h1]
  · simp [send_notification, he]

/-- Claim C9: `start_monitoring` on an already-running scheduler returns the
`MonitorAlreadyRunning` error and changes nothing: same state, same
registry, no new loop task. -/
theorem start_when_running_errors (s : MonitorState)
    (h : s.monitoring_task.isSome = true) :
    start_monitoring s = (s, some CoreErrorM.MonitorAlreadyRunning) ∧
    (start_monitoring s).1.devices = s.devices ∧
    (start_monitoring s).1.monitoring_task = s.monitoring_task := by
  simp [start_monitoring, h]

/-- Witness for the double-start claim on a concrete running scheduler. -/
theorem start_when_running_errors_witness :
    (MonitorState.mk [("A", devW (some 30))] (some ()) (some ())).monitoring_task.isSome
      = true ∧
    start_monitoring (MonitorState.mk [("A", devW (some 30))] (some ()) (some ())) =
      (MonitorState.mk [("A", devW (some 30))] (some ()) (some ()),
        some CoreErrorM.MonitorAlreadyRunning) := by
  refine ⟨by decide, ?_⟩
  exact (start_when_running_errors
    (MonitorState.mk [("A", devW (some 30))] (some ()) (some ())) (by decide)).1

/-! ## Battery-range claims (usb.rs and the registry) -/

theorem parseU8_le (s : String) (v : Nat) (h : parseU8 s = some v) : v ≤ 255 := by
  simp only [parseU8] at h
  split at h
  · exact Option.noConfusion h
  · split at h
    · split at h
      · cases h; assumption
      · exact Option.noConfusion h
    · exact Option.noConfusion h

theorem create_power_supply_battery_u8 (now : Nat) (name : String)
    (tf cf sf mf : Option String) (d : Device)
    (hc : create_power_supply_device now name tf cf sf mf = Except.ok d) :
    batteryWithinU8 d = true := by
  simp only [create_power_supply_device] at hc
  split at hc
  · exact Except.noConfusion hc
  · split at hc
    · cases hc
      cases cf with
      | none => rfl
      | some s =>
          cases hp : parseU8 (strTrim s) with
          | none =>
              simp [batteryWithinU8, Device.set_connected, Device.update_battery,
                Device.with_id, hp]
          | some v =>
              simp [batteryWithinU8, Device.set_connected, Device.update_battery,
                Device.with_id, hp]
              exact parseU8_le _ _ hp
    · exact Except.noConfusion hc

theorem mem_mapInsert {β : Type} (m : List (String × β)) (k : String) (v : β)
    (p : String × β) (hp : p ∈ mapInsert m k v) : p ∈ m ∨ p = (k, v) := by
  induction m with
  | nil => simp [mapInsert] at hp; exact Or.inr hp
  | cons hd t ih =>
      obtain ⟨k2, v2⟩ := hd
      by_cases hk : k2 = k
      · simp only [mapInsert, if_pos hk] at hp
        rcases List.mem_cons.mp hp with rfl | hm
        · exact Or.inr rfl
        · exact Or.inl (List.mem_cons.mpr (Or.inr hm))
      · simp only [mapInsert, if_neg hk] at hp
        rcases List.mem_cons.mp hp with rfl | hm
        · exact Or.inl (List.mem_cons.mpr (Or.inl rfl))
        · rcases ih hm with h1 | h2
          · exact Or.inl (List.mem_cons.mpr (Or.inr h1))
          · exact Or.inr h2

theorem mem_processOne (reg : RegT) (d : Device) (p : String × Device)
    (hp : p ∈ (processOne reg d).1) : p ∈ reg ∨ p = (d.id, d) := by
  cases hfind : mapFind reg d.id with
  | none =>
      have h1 : (processOne reg d).1 = mapInsert reg d.id d := by
        simp [processOne, hfind]
      rw [h1] at hp
      exact mem_mapInsert _ _ _ _ hp
  | some existing =>
      by_cases he : existing = d
      · have h1 : (processOne reg d).1 = reg := by simp [processOne, hfind, he]
        rw [h1] at hp
        exact Or.inl hp
      · have h1 : (processOne reg d).1 = mapInsert reg d.id d := by
          simp [processOne, hfind, he]
        rw [h1] at hp
        exact mem_mapInsert _ _ _ _ hp

theorem mem_processDevices (ds : List Device) : ∀ (reg : RegT) (p : String × Device),
    p ∈ (processDevices reg ds).1 → p ∈ reg ∨ p.2 ∈ ds := by
  induction ds with
  | nil => intro reg p hp; exact Or.inl hp
  | cons d rest ih =>
      intro reg p hp
      rcases ih _ _ hp with h1 | h2
      · rcases mem_processOne reg d p h1 with ha | hb
        · exact Or.inl ha
        · subst hb
          exact Or.inr (List.mem_cons.mpr (Or.inl rfl))
      · exact Or.inr (List.mem_cons.mpr (Or.inr h2))

/-- Claim C5 counterexample: a power-supply capacity file containing 200
is accepted by the lenient u8 parse, flows through the scan filter and is
stored in the registry with battery 200, violating the stated [0,100]
invariant. -/
theorem battery_range_counterexample :
    ∃ d : Device,
      create_power_supply_device 0 "BAT0" (some "Battery") (some "200")
          (some "Discharging") none = Except.ok d ∧
      d.battery_level = some 200 ∧
      batteryWithin100 d = false ∧
      scan_power_supply_devices 0
          [⟨"BAT0", some "Battery", some "200", some "Discharging", none⟩] =
        Except.ok [d] ∧
      mapFind (update_device_list [] [d]).1 d.id = some d := by
  refine ⟨psDev "BAT0" (some 200), ?_, ?_, ?_, ?_, ?_⟩
  · decide
  · decide
  · decide
  · decide
  · decide

/-- Claim C5 amended: battery, when present, fits the u8 range [0,255]:
the power-supply device constructor only produces such values, and the
diff preserves the property from the stored registry and the incoming
list to the resulting registry. -/
theorem battery_u8_invariant (now : Nat) (name : String)
    (tf cf sf mf : Option String) (d : Device) (reg : RegT) (ds : List Device)
    (hc : create_power_supply_device now name tf cf sf mf = Except.ok d)
    (hreg : ∀ p ∈ reg, batteryWithinU8 p.2 = true)
    (hds : ∀ x ∈ ds, batteryWithinU8 x = true) :
    batteryWithinU8 d = true ∧
    ∀ p ∈ (update_device_list reg ds).1, batteryWithinU8 p.2 = true := by
  refine ⟨create_power_supply_battery_u8 now name tf cf sf mf d hc, ?_⟩
  intro p hp
  rw [update_device_list_fst] at hp
  have hmem := List.mem_filter.mp hp
  rcases mem_processDevices ds reg p hmem.1 with h1 | h2
  · exact hreg p h1
  · exact hds p.2 h2

/-- Witness for the u8-range bound at capacity 200 through scan and diff. -/
theorem battery_u8_invariant_witness :
    create_power_supply_device 0 "BAT0" (some "Battery") (some "200")
        (some "Discharging") none = Except.ok (psDev "BAT0" (some 200)) ∧
    batteryWithinU8 (psDev "BAT0" (some 200)) = true := by
  refine ⟨by decide, ?_⟩
  exact (battery_u8_invariant 0 "BAT0" (some "Battery") (some "200") (some "Discharging")
    none (psDev "BAT0" (some 200)) [] [] (by decide) (by intro p hp; cases hp)
    (by intro x hx; cases hx)).1

/-! ## Missing-capacity claims (usb.rs) -/

/-- Every device kept by the power-supply scan reports a battery value. -/
theorem scan_power_supply_isSome (now : Nat) (entries : List PSEntry) :
    ∀ (acc : List Device), (∀ x ∈ acc, x.battery_level.isSome = true) →
    ∀ d ∈ entries.foldl
      (fun acc e =>
        match create_power_supply_device now e.name e.type_file e.capacity_file
            e.status_file e.model_name_file with
        | Except.ok d => if d.battery_level.isSome then acc ++ [d] else acc
        | Except.error _ => acc)
      acc, d.battery_level.isSome = true := by
  induction entries with
  | nil => intro acc hacc d hd; exact hacc d hd
  | cons e rest ih =>
      intro acc hacc d hd
      rw [List.foldl_cons] at hd
      refine ih _ ?_ d hd
      intro x hx
      revert hx
      cases hc : create_power_supply_device now e.name e.type_file e.capacity_file
          e.status_file e.model_name_file with
      | error err => intro hx; exact hacc x hx
      | ok dd =>
          intro hx
          have hx2 : x ∈ (if dd.battery_level.isSome = true then acc ++ [dd] else acc) :=
            hx
          by_cases hs : dd.battery_level.isSome = true
          · rw [if_pos hs] at hx2
            rcases List.mem_append.mp hx2 with h1 | h2
            · exact hacc x h1
            · rw [List.mem_singleton.mp h2]; exact hs
          · rw [if_neg hs] at hx2
            exact hacc x hx2

/-- Claim C6 counterexample: a Battery entry with no capacity file yields
an ok device without battery value from the constructor, yet the scan
result omits it entirely instead of including it with battery absent. -/
theorem capacity_missing_entry_counterexample :
    (∃ d : Device,
      create_power_supply_device 0 "BAT0" (some "Battery") none (some "Discharging")
          none = Except.ok d ∧ d.battery_level = none) ∧
    scan_power_supply_devices 0
        [⟨"BAT0", some "Battery", none, some "Discharging", none⟩] = Except.ok [] := by
  constructor
  · refine ⟨psDev "BAT0" none, ?_, ?_⟩
    · decide
    · decide
  · decide

/-- Claim C6 amended: with declared type Battery and a missing or
unparseable capacity, the constructor still succeeds and yields a device
with no battery value — no error — with the other optional files degraded
to defaults; the power-supply scan however keeps only devices that report
a battery value, so such an entry is omitted from the scan result rather
than appearing with battery absent. -/
theorem capacity_missing_degrades (now : Nat) (name : String)
    (cf sf mf : Option String) (entries : List PSEntry) (l : List Device) (d : Device)
    (hcap : (match cf with
             | some s => parseU8 (strTrim s)
             | none => none) = (none : Option Nat))
    (hscan : scan_power_supply_devices now entries = Except.ok l) (hd : d ∈ l) :
    (∃ dd : Device, create_power_supply_device now name (some "Battery") cf sf mf =
        Except.ok dd ∧ dd.battery_level = none) ∧
    d.battery_level.isSome = true := by
  constructor
  · simp only [create_power_supply_device]
    rw [if_pos (by decide : strTrim "Battery" = "Battery")]
    refine ⟨_, rfl, ?_⟩
    simp only [Device.set_connected, Device.update_battery, Device.with_id]
    exact hcap
  · simp only [scan_power_supply_devices, Except.ok.injEq] at hscan
    subst hscan
    exact scan_power_supply_isSome now entries [] (by intro x hx; cases hx) d hd

/-- Witness for the missing-capacity claim: capacity absent degrades to no
battery, while a parsable sibling entry does appear in the scan. -/
theorem capacity_missing_degrades_witness :
    scan_power_supply_devices 0
        [⟨"BAT1", some "Battery", some "50", some "Charging", none⟩] =
      Except.ok [psDev "BAT1" (some 50)] ∧
    (∃ dd : Device, create_power_supply_device 0 "BAT0" (some "Battery") none
        (some "Discharging") none = Except.ok dd ∧ dd.battery_level = none) ∧
    (psDev "BAT1" (some 50)).battery_level.isSome = true := by
  have h := capacity_missing_degrades 0 "BAT0" none (some "Discharging") none
    [⟨"BAT1", some "Battery", some "50", some "Charging", none⟩]
    [psDev "BAT1" (some 50)] (psDev "BAT1" (some 50))
    (by decide) (by decide) (by decide)
  exact ⟨by decide, h.1, h.2⟩

end BatteryBt
